import Mathlib

/-!
Verification of the GR4J rainfall-runoff engine of this repository
(`src/gr4j_model.py`): the unit-hydrograph builder
(`GR4J._compute_unit_hydrographs`, lines 114-147), the time-stepping
simulation (`GR4J.run`, lines 21-112) and the Nash-Sutcliffe metric
(`calculate_nse`, lines 150-156).

The embedding uses real numbers for Python/numpy floats.  All numpy
operations appearing in the source are total real-valued computations
that raise no exception (warnings such as division by zero produce
non-finite floats, they do not abort), except for two genuine exception
sites, which are modelled by `Option`:
  * `evap[t]` raises `IndexError` when `t >= len(evap)` (the loop runs
    over `range(len(precip))`);
  * `np.zeros(k)` raises `ValueError` for `k < 0`, and `stores[0] = x`
    raises `IndexError` on a length-0 store array (both reachable only
    when `X4 <= 0`).
Real division by zero is Lean's total junk value where numpy would
produce `inf`/`nan`; no theorem below inspects a value produced through
a division whose denominator is zero, except where the statement
displays the offending quotient verbatim.  One further corner is kept
out of scope by hypothesis instead of being modelled: when `X1 == 0`
(resp. `X3 == 0`) exactly, the first step's `S / self.X1` (line 56 or
66; resp. `R / self.X3`, line 98) divides two native Python floats and
raises `ZeroDivisionError`, unlike every other division of the loop,
whose numpy operands only warn; the theorems about completed runs
therefore carry `X1 ≠ 0` and `X3 ≠ 0`.
-/

open List

/-- numpy's `np.clip(a, lo, hi)`: `min(max(a, lo), hi)` (when `lo > hi`
the result is `hi`, as numpy documents). -/
noncomputable def npClip (a lo hi : ℝ) : ℝ := min (max a lo) hi

/-- numpy's `np.mean(xs)`: sum divided by length (`0/0` junk on `[]`,
where numpy warns and yields `nan`). -/
noncomputable def npMean (xs : List ℝ) : ℝ := xs.sum / xs.length

/-- numpy's `np.sum(a * b)` for two equal-length arrays: the dot product used to
evaluate the unit-hydrograph convolutions (lines 91 and 95). -/
noncomputable def dot (a b : List ℝ) : ℝ := (List.zipWith (fun x y => x * y) a b).sum

/-- The in-place first-difference normalization `v[1:] = v[1:] - v[:-1]`
applied to both kernels (lines 126-127 and 144-145); numpy materializes
the right-hand side from the original array before assigning, so entry 0
is kept and entry `i+1` becomes `v[i+1] - v[i]`.  The source guards it
with `if n > 1`, which changes nothing for lengths 0 and 1. -/
def firstDiff : List ℝ → List ℝ
  | [] => []
  | x :: xs => x :: List.zipWith (fun a b => a - b) xs (x :: xs)

/-- Lines 118-123: the pre-normalization UH1 array of length `n`; entry
`t` is `((t+1)/X4)^2.5` when `t < X4` and keeps the `np.zeros` value 0
otherwise. -/
noncomputable def UH1raw (X4 : ℝ) (n : ℕ) : List ℝ :=
  (List.range n).map fun t : ℕ =>
    if (t : ℝ) < X4 then (((t : ℝ) + 1) / X4) ^ (2.5 : ℝ) else 0

/-- Lines 114-127: `UH1` as returned, with `n = int(np.ceil(X4))`. -/
noncomputable def computeUH1 (X4 : ℝ) : List ℝ := firstDiff (UH1raw X4 ⌈X4⌉.toNat)

/-- Lines 130-141: the pre-normalization UH2 array of length `n`; the
branch on `t < X4` tests the 0-based loop index while the formula uses
`t + 1`, and the `ratio > 0` test is the source's guard against raising
a negative base to the power 2.5. -/
noncomputable def UH2raw (X4 : ℝ) (n : ℕ) : List ℝ :=
  (List.range n).map fun t : ℕ =>
    if (t : ℝ) < X4 then 0.5 * ((((t : ℝ) + 1) / X4) ^ (2.5 : ℝ))
    else if (t : ℝ) < 2 * X4 then
      if 2 - ((t : ℝ) + 1) / X4 > 0 then 1 - 0.5 * (2 - ((t : ℝ) + 1) / X4) ^ (2.5 : ℝ) else 1
    else 0

/-- Lines 129-147: `UH2` as returned, with `n = int(np.ceil(2 * X4))`. -/
noncomputable def computeUH2 (X4 : ℝ) : List ℝ := firstDiff (UH2raw X4 ⌈2 * X4⌉.toNat)

/-- The model object: the four parameters stored by `GR4J.__init__`
(lines 15-19), which performs no validity check of any kind. -/
structure GR4J where
  X1 : ℝ
  X2 : ℝ
  X3 : ℝ
  X4 : ℝ

/-- The loop-carried state of one simulation: production store `S`,
routing store `R`, and the two delay-line arrays `UH1_stores`,
`UH2_stores`. -/
structure GR4Jstate where
  S : ℝ
  R : ℝ
  uh1Stores : List ℝ
  uh2Stores : List ℝ

/-- Lines 51-58: the store inflow `Ps`, computed on the branch
`precip[t] >= evap[t]` from `Pn = precip[t] - evap[t]` and set to 0 on
the other branch. -/
noncomputable def stepPs (m : GR4J) (S prec ev : ℝ) : ℝ :=
  if prec ≥ ev then
    m.X1 * (1 - (S / m.X1) ^ 2) * Real.tanh ((prec - ev) / m.X1) /
      (1 + S / m.X1 * Real.tanh ((prec - ev) / m.X1))
  else 0

/-- Lines 60-70: the store evaporation `Es`, 0 on the branch
`precip[t] >= evap[t]` and computed from `En = evap[t] - precip[t]` on
the other. -/
noncomputable def stepEs (m : GR4J) (S prec ev : ℝ) : ℝ :=
  if prec ≥ ev then 0
  else
    S * (2 - S / m.X1) * Real.tanh ((ev - prec) / m.X1) /
      (1 + (1 - S / m.X1) * Real.tanh ((ev - prec) / m.X1))

/-- Lines 72-74: the production store after inflow/evaporation, clipped
into `[0, X1]`. -/
noncomputable def stepS1 (m : GR4J) (S prec ev : ℝ) : ℝ :=
  npClip (S - stepEs m S prec ev + stepPs m S prec ev) 0 m.X1

/-- The saturating-outflow expression `y * (1 - (1 + (y/c/2.25)^4)^(-0.25))`
shared by the percolation (line 78, `c = X1`) and the routing-store
outflow (line 105, `c = X3`). -/
noncomputable def satOutflow (y c : ℝ) : ℝ :=
  y * (1 - (1 + (y / c / 2.25) ^ 4) ^ (-0.25 : ℝ))

/-- Lines 76-78: percolation from the production store. -/
noncomputable def percOf (m : GR4J) (S : ℝ) : ℝ := satOutflow S m.X1

/-- Line 82: the routing input `Pr = perc + (precip[t] - Ps)`, written
with the raw precipitation of the day (not the net value `Pn`). -/
noncomputable def stepPr (m : GR4J) (S prec ev : ℝ) : ℝ :=
  percOf m (stepS1 m S prec ev) + (prec - stepPs m S prec ev)

/-- Lines 89-91: `np.roll(UH1_stores, 1)` then `UH1_stores[0] = Pr9`
turns the delay line into `Pr9 :: dropLast`, and `Q9` is its dot
product with the UH1 ordinates (`Pr9 = 0.9 * Pr`, line 85). -/
noncomputable def stepQ9 (m : GR4J) (uh1 : List ℝ) (st : GR4Jstate) (prec ev : ℝ) : ℝ :=
  dot (0.9 * stepPr m st.S prec ev :: st.uh1Stores.dropLast) uh1

/-- Lines 93-95: the same for the second delay line with
`Pr1 = 0.1 * Pr` (line 86) and the UH2 ordinates. -/
noncomputable def stepQ1 (m : GR4J) (uh2 : List ℝ) (st : GR4Jstate) (prec ev : ℝ) : ℝ :=
  dot (0.1 * stepPr m st.S prec ev :: st.uh2Stores.dropLast) uh2

/-- Lines 97-101: groundwater exchange `F = X2 * (R/X3)^3.5` and the
updated routing store `R = max(0, R + Q9 + F)`. -/
noncomputable def stepR1 (m : GR4J) (uh1 : List ℝ) (st : GR4Jstate) (prec ev : ℝ) : ℝ :=
  max 0 (st.R + stepQ9 m uh1 st prec ev + m.X2 * (st.R / m.X3) ^ (3.5 : ℝ))

/-- Lines 103-105: the routing-store outflow `Qr`. -/
noncomputable def stepQr (m : GR4J) (uh1 : List ℝ) (st : GR4Jstate) (prec ev : ℝ) : ℝ :=
  satOutflow (stepR1 m uh1 st prec ev) m.X3

/-- The state carried into the next day: production store after
percolation (line 79), routing store after outflow (line 106), and the
two shifted delay lines. -/
noncomputable def stepNext (m : GR4J) (uh1 : List ℝ) (st : GR4Jstate) (prec ev : ℝ) : GR4Jstate :=
  ⟨stepS1 m st.S prec ev - percOf m (stepS1 m st.S prec ev),
   stepR1 m uh1 st prec ev - stepQr m uh1 st prec ev,
   0.9 * stepPr m st.S prec ev :: st.uh1Stores.dropLast,
   0.1 * stepPr m st.S prec ev :: st.uh2Stores.dropLast⟩

/-- Lines 108-110: the day's discharge `Qd = max(0, Qr + Q1)`. -/
noncomputable def stepQd (m : GR4J) (uh1 uh2 : List ℝ) (st : GR4Jstate) (prec ev : ℝ) : ℝ :=
  max 0 (stepQr m uh1 st prec ev + stepQ1 m uh2 st prec ev)

/-- Lines 49-110: one iteration of the simulation loop.  `none` models
the `IndexError` raised by `UH1_stores[0] = Pr9` (line 90) or
`UH2_stores[0] = Pr1` (line 94) on a length-0 delay line; every other
operation of the body is total. -/
noncomputable def step (m : GR4J) (uh1 uh2 : List ℝ) (st : GR4Jstate) (prec ev : ℝ) :
    Option (GR4Jstate × ℝ) :=
  if st.uh1Stores.isEmpty || st.uh2Stores.isEmpty then none
  else some (stepNext m uh1 st prec ev, stepQd m uh1 uh2 st prec ev)

/-- The loop `for t in range(len(precip))` (line 49), consuming one
precipitation and one evapotranspiration value per step; `none` models
the `IndexError` of `evap[t]` (line 51) once the evapotranspiration
list is exhausted while precipitation remains. -/
noncomputable def runAux (m : GR4J) (uh1 uh2 : List ℝ) :
    GR4Jstate → List ℝ → List ℝ → Option (GR4Jstate × List ℝ)
  | st, [], _ => some (st, [])
  | _, _ :: _, [] => none
  | st, p :: ps, e :: es =>
    match step m uh1 uh2 st p e with
    | none => none
    | some (st1, q) =>
      match runAux m uh1 uh2 st1 ps es with
      | none => none
      | some (stF, qs) => some (stF, q :: qs)

/-- Lines 35-47: the state created afresh at the start of every call to
`run`: `S = X1 * 0.5`, `R = X3 * 0.5`, and zero-filled delay lines of
the kernels' lengths. -/
noncomputable def initState (m : GR4J) : GR4Jstate :=
  { S := m.X1 * 0.5
    R := m.X3 * 0.5
    uh1Stores := List.replicate (computeUH1 m.X4).length 0
    uh2Stores := List.replicate (computeUH2 m.X4).length 0 }

/-- Lines 21-112: `GR4J.run`.  The guard models the `ValueError` that
`np.zeros(k)` raises for a negative length (lines 119, 131, 46, 47),
the only way the call can fail before the time loop; there is no shape
check and no parameter check anywhere in the method. -/
noncomputable def GR4J.run (m : GR4J) (precip evap : List ℝ) : Option (List ℝ) :=
  if ⌈m.X4⌉ < 0 ∨ ⌈2 * m.X4⌉ < 0 then none
  else (runAux m (computeUH1 m.X4) (computeUH2 m.X4) (initState m) precip evap).map Prod.snd

/-- The method call `model.run(precip, evap)` viewed as a transformer of
the model object: the Python body assigns only local variables (`S`,
`R`, `Q`, the kernels, the delay lines, loop locals) and never writes a
`self` attribute, so the object comes back unchanged beside the
returned series. -/
noncomputable def runMethod (m : GR4J) (precip evap : List ℝ) : GR4J × Option (List ℝ) :=
  (m, m.run precip evap)

/-- Line 153: `np.sum((observed - simulated)**2)`. -/
noncomputable def nseNumerator (observed simulated : List ℝ) : ℝ :=
  (List.zipWith (fun o s => (o - s) ^ 2) observed simulated).sum

/-- Line 154: `np.sum((observed - obs_mean)**2)`. -/
noncomputable def nseDenominator (observed : List ℝ) : ℝ :=
  (observed.map fun o => (o - npMean observed) ^ 2).sum

/-- Lines 150-156: `calculate_nse`, a pure arithmetic expression with no
validity check of any kind (numpy turns a zero denominator into a
non-finite float with a warning; nothing is raised). -/
noncomputable def calculate_nse (observed simulated : List ℝ) : ℝ :=
  1 - nseNumerator observed simulated / nseDenominator observed

/-! Basic bounds on the step pieces -/

lemma satOutflow_nonneg (y c : ℝ) (hy : 0 ≤ y) : 0 ≤ satOutflow y c := by
  have hu : (0 : ℝ) ≤ (y / c / 2.25) ^ 4 := by positivity
  have hle : (1 + (y / c / 2.25) ^ 4) ^ (-0.25 : ℝ) ≤ 1 :=
    Real.rpow_le_one_of_one_le_of_nonpos (by linarith) (by norm_num)
  exact mul_nonneg hy (by linarith)

lemma satOutflow_le (y c : ℝ) (hy : 0 ≤ y) : satOutflow y c ≤ y := by
  have hu : (0 : ℝ) ≤ (y / c / 2.25) ^ 4 := by positivity
  have hpos : 0 < (1 + (y / c / 2.25) ^ 4) ^ (-0.25 : ℝ) :=
    Real.rpow_pos_of_pos (by linarith) _
  calc satOutflow y c = y * (1 - (1 + (y / c / 2.25) ^ 4) ^ (-0.25 : ℝ)) := rfl
    _ ≤ y * 1 := mul_le_mul_of_nonneg_left (by linarith) hy
    _ = y := mul_one y

lemma stepS1_nonneg (m : GR4J) (S prec ev : ℝ) (h : 0 ≤ m.X1) : 0 ≤ stepS1 m S prec ev :=
  le_min (le_max_right _ _) h

lemma stepS1_le (m : GR4J) (S prec ev : ℝ) : stepS1 m S prec ev ≤ m.X1 :=
  min_le_right _ _

lemma stepNext_R_nonneg (m : GR4J) (uh1 : List ℝ) (st : GR4Jstate) (p e : ℝ) :
    0 ≤ (stepNext m uh1 st p e).R := by
  have h0 : 0 ≤ stepR1 m uh1 st p e := le_max_left _ _
  have := satOutflow_le (stepR1 m uh1 st p e) m.X3 h0
  show 0 ≤ stepR1 m uh1 st p e - stepQr m uh1 st p e
  unfold stepQr
  linarith

lemma stepNext_S_bounds (m : GR4J) (uh1 : List ℝ) (st : GR4Jstate) (p e : ℝ)
    (hX1 : 0 ≤ m.X1) :
    0 ≤ (stepNext m uh1 st p e).S ∧ (stepNext m uh1 st p e).S ≤ m.X1 := by
  have h0 : 0 ≤ stepS1 m st.S p e := stepS1_nonneg m st.S p e hX1
  have h1 := satOutflow_le (stepS1 m st.S p e) m.X1 h0
  have h2 := satOutflow_nonneg (stepS1 m st.S p e) m.X1 h0
  have h3 := stepS1_le m st.S p e
  constructor
  · show 0 ≤ stepS1 m st.S p e - percOf m (stepS1 m st.S p e)
    unfold percOf
    linarith
  · show stepS1 m st.S p e - percOf m (stepS1 m st.S p e) ≤ m.X1
    unfold percOf
    linarith

lemma stepQd_nonneg (m : GR4J) (uh1 uh2 : List ℝ) (st : GR4Jstate) (p e : ℝ) :
    0 ≤ stepQd m uh1 uh2 st p e :=
  le_max_left _ _

lemma step_eq (m : GR4J) (uh1 uh2 : List ℝ) (st : GR4Jstate) (p e : ℝ)
    (hs1 : st.uh1Stores ≠ []) (hs2 : st.uh2Stores ≠ []) :
    step m uh1 uh2 st p e = some (stepNext m uh1 st p e, stepQd m uh1 uh2 st p e) := by
  obtain ⟨a, as, h1⟩ := List.exists_cons_of_ne_nil hs1
  obtain ⟨b, bs, h2⟩ := List.exists_cons_of_ne_nil hs2
  unfold step
  rw [h1, h2]
  rfl

/-! The loop: totality, lengths, and the state invariant -/

lemma runAux_main (m : GR4J) (uh1 uh2 : List ℝ) (pr : List ℝ) :
    ∀ (ev : List ℝ) (st : GR4Jstate), pr.length ≤ ev.length →
      st.uh1Stores ≠ [] → st.uh2Stores ≠ [] →
      ∃ st' qs, runAux m uh1 uh2 st pr ev = some (st', qs) ∧
        qs.length = pr.length ∧ (∀ q ∈ qs, 0 ≤ q) ∧
        st'.uh1Stores ≠ [] ∧ st'.uh2Stores ≠ [] ∧
        (st' = st ∨ (0 ≤ st'.R ∧ (0 ≤ m.X1 → 0 ≤ st'.S ∧ st'.S ≤ m.X1))) := by
  induction pr with
  | nil =>
    intro ev st _ hs1 hs2
    exact ⟨st, [], rfl, rfl, by simp, hs1, hs2, Or.inl rfl⟩
  | cons p ps ih =>
    intro ev st hle hs1 hs2
    match ev with
    | [] => simp at hle
    | e :: es =>
      have hstep := step_eq m uh1 uh2 st p e hs1 hs2
      obtain ⟨st', qs, hrec, hlen, hqs, h1, h2, hor⟩ :=
        ih es (stepNext m uh1 st p e) (by simpa using hle)
          (List.cons_ne_nil _ _) (List.cons_ne_nil _ _)
      refine ⟨st', stepQd m uh1 uh2 st p e :: qs, ?_, by simp [hlen], ?_, h1, h2, ?_⟩
      · simp only [runAux, hstep, hrec]
      · intro x hx
        rcases List.mem_cons.mp hx with h | h
        · exact h ▸ stepQd_nonneg m uh1 uh2 st p e
        · exact hqs x h
      · rcases hor with h | h
        · rw [h]
          exact Or.inr ⟨stepNext_R_nonneg m uh1 st p e,
            fun hX1 => stepNext_S_bounds m uh1 st p e hX1⟩
        · exact Or.inr h

lemma runAux_none_of_lt (m : GR4J) (uh1 uh2 : List ℝ) (pr : List ℝ) :
    ∀ (ev : List ℝ) (st : GR4Jstate), ev.length < pr.length →
      runAux m uh1 uh2 st pr ev = none := by
  induction pr with
  | nil => intro ev st h; simp at h
  | cons p ps ih =>
    intro ev st h
    match ev with
    | [] => rfl
    | e :: es =>
      have h' : es.length < ps.length := by simpa using h
      simp only [runAux]
      cases hstep : step m uh1 uh2 st p e with
      | none => rfl
      | some pair =>
        obtain ⟨st1, q⟩ := pair
        simp only [ih es st1 h']

lemma runAux_take (m : GR4J) (uh1 uh2 : List ℝ) (pr : List ℝ) :
    ∀ (ev : List ℝ) (st : GR4Jstate), pr.length ≤ ev.length →
      runAux m uh1 uh2 st pr (ev.take pr.length) = runAux m uh1 uh2 st pr ev := by
  induction pr with
  | nil => intro ev st _; rfl
  | cons p ps ih =>
    intro ev st hle
    match ev with
    | [] => simp at hle
    | e :: es =>
      have hle' : ps.length ≤ es.length := by simpa using hle
      show runAux m uh1 uh2 st (p :: ps) (e :: es.take ps.length) = _
      simp only [runAux]
      cases hstep : step m uh1 uh2 st p e with
      | none => rfl
      | some pair =>
        obtain ⟨st1, q⟩ := pair
        simp only [ih es st1 hle']

lemma firstDiff_length (v : List ℝ) : (firstDiff v).length = v.length := by
  cases v with
  | nil => rfl
  | cons x xs => simp [firstDiff]

lemma UH1raw_length (X4 : ℝ) (n : ℕ) : (UH1raw X4 n).length = n := by
  rw [UH1raw, List.length_map, List.length_range]

lemma UH2raw_length (X4 : ℝ) (n : ℕ) : (UH2raw X4 n).length = n := by
  rw [UH2raw, List.length_map, List.length_range]

lemma computeUH1_length (X4 : ℝ) : (computeUH1 X4).length = ⌈X4⌉.toNat := by
  rw [computeUH1, firstDiff_length, UH1raw_length]

lemma computeUH2_length (X4 : ℝ) : (computeUH2 X4).length = ⌈2 * X4⌉.toNat := by
  rw [computeUH2, firstDiff_length, UH2raw_length]

lemma initState_stores (m : GR4J) (h4 : 0 < m.X4) :
    (initState m).uh1Stores ≠ [] ∧ (initState m).uh2Stores ≠ [] := by
  have hc1 : (0 : ℤ) < ⌈m.X4⌉ := Int.ceil_pos.mpr h4
  have hc2 : (0 : ℤ) < ⌈2 * m.X4⌉ := Int.ceil_pos.mpr (by linarith)
  constructor
  · show List.replicate (computeUH1 m.X4).length 0 ≠ []
    rw [computeUH1_length]
    simp only [ne_eq, List.replicate_eq_nil_iff]
    omega
  · show List.replicate (computeUH2 m.X4).length 0 ≠ []
    rw [computeUH2_length]
    simp only [ne_eq, List.replicate_eq_nil_iff]
    omega

lemma run_eq_of_pos (m : GR4J) (h4 : 0 < m.X4) (pr ev : List ℝ) :
    m.run pr ev =
      (runAux m (computeUH1 m.X4) (computeUH2 m.X4) (initState m) pr ev).map Prod.snd := by
  have hc1 : (0 : ℤ) < ⌈m.X4⌉ := Int.ceil_pos.mpr h4
  have hc2 : (0 : ℤ) < ⌈2 * m.X4⌉ := Int.ceil_pos.mpr (by linarith)
  rw [GR4J.run, if_neg]
  push_neg
  omega

lemma run_some (m : GR4J) (pr ev : List ℝ) (h4 : 0 < m.X4) (hle : pr.length ≤ ev.length) :
    ∃ Q, m.run pr ev = some Q ∧ Q.length = pr.length ∧ ∀ q ∈ Q, 0 ≤ q := by
  obtain ⟨hs1, hs2⟩ := initState_stores m h4
  obtain ⟨st', qs, heq, hlen, hqs, -, -, -⟩ :=
    runAux_main m (computeUH1 m.X4) (computeUH2 m.X4) pr ev (initState m) hle hs1 hs2
  refine ⟨qs, ?_, hlen, hqs⟩
  rw [run_eq_of_pos m h4, heq]
  rfl

lemma run_isSome_iff (m : GR4J) (pr ev : List ℝ) (h4 : 0 < m.X4) :
    (m.run pr ev).isSome = true ↔ pr.length ≤ ev.length := by
  constructor
  · intro h
    by_contra hlt
    rw [run_eq_of_pos m h4,
      runAux_none_of_lt m _ _ pr ev (initState m) (by omega)] at h
    simp at h
  · intro hle
    obtain ⟨Q, hQ, -, -⟩ := run_some m pr ev h4 hle
    rw [hQ]
    rfl

/-! Claim C2: state and discharge invariants of a full run -/

/-- C2: for every valid parameter set (X1 > 0, X3 > 0, X4 > 0) and every
pair of equal-length forcing sequences, the run succeeds with one
non-negative discharge value per step, and at the end of every simulated
step (i.e. after every prefix of the forcing) the production store S
lies in [0, X1] and the routing store R is non-negative. -/
theorem run_state_invariants (m : GR4J) (pr ev : List ℝ)
    (h1 : 0 < m.X1) (h3 : 0 < m.X3) (h4 : 0 < m.X4) (hlen : pr.length = ev.length) :
    (∃ Q, m.run pr ev = some Q ∧ Q.length = pr.length ∧ ∀ q ∈ Q, 0 ≤ q) ∧
    ∀ k : ℕ, ∃ st qs,
      runAux m (computeUH1 m.X4) (computeUH2 m.X4) (initState m)
          (pr.take k) (ev.take k) = some (st, qs) ∧
        0 ≤ st.S ∧ st.S ≤ m.X1 ∧ 0 ≤ st.R := by
  refine ⟨run_some m pr ev h4 hlen.le, fun k => ?_⟩
  obtain ⟨hs1, hs2⟩ := initState_stores m h4
  have hlen' : (pr.take k).length ≤ (ev.take k).length := by
    simp [List.length_take, hlen]
  obtain ⟨st', qs, heq, -, -, -, -, hor⟩ :=
    runAux_main m (computeUH1 m.X4) (computeUH2 m.X4) (pr.take k) (ev.take k)
      (initState m) hlen' hs1 hs2
  refine ⟨st', qs, heq, ?_⟩
  rcases hor with h | h
  · rw [h]
    refine ⟨?_, ?_, ?_⟩
    · show (0 : ℝ) ≤ m.X1 * 0.5
      linarith
    · show m.X1 * 0.5 ≤ m.X1
      linarith
    · show (0 : ℝ) ≤ m.X3 * 0.5
      linarith
  · exact ⟨(h.2 h1.le).1, (h.2 h1.le).2, h.1⟩

/-- Witness for C2 at X1 = 350, X2 = 0, X3 = 90, X4 = 1.7 with a
one-day forcing. -/
theorem run_state_invariants_witness :
    (∃ Q, GR4J.run ⟨350, 0, 90, 1.7⟩ [10] [0] = some Q ∧
        Q.length = [(10 : ℝ)].length ∧ ∀ q ∈ Q, 0 ≤ q) ∧
    ∀ k : ℕ, ∃ st qs,
      runAux ⟨350, 0, 90, 1.7⟩ (computeUH1 (GR4J.X4 ⟨350, 0, 90, 1.7⟩))
          (computeUH2 (GR4J.X4 ⟨350, 0, 90, 1.7⟩)) (initState ⟨350, 0, 90, 1.7⟩)
          ([(10 : ℝ)].take k) ([(0 : ℝ)].take k) = some (st, qs) ∧
        0 ≤ st.S ∧ st.S ≤ GR4J.X1 ⟨350, 0, 90, 1.7⟩ ∧ 0 ≤ st.R :=
  run_state_invariants ⟨350, 0, 90, 1.7⟩ [10] [0]
    (show (0 : ℝ) < 350 by norm_num) (show (0 : ℝ) < 90 by norm_num)
    (show (0 : ℝ) < 1.7 by norm_num) rfl

/-! Claim C3: the routing input uses the day's raw precipitation -/

/-- C3: on both branches the routing input of line 82 is
`Pr = perc + (precip[t] - Ps)` with the raw precipitation of day t
(first conjunct, which holds definitionally since `stepPr` is taken
verbatim from line 82 and used by the step), and on the
evaporation-dominant branch (precip < evap) the store inflow Ps is 0,
so `Pr = perc + precip[t]`: the raw precipitation enters the routing
even though the net precipitation Pn is 0 on this branch. -/
theorem routing_input_raw_precip (m : GR4J) (S prec ev : ℝ) (h : prec < ev) :
    stepPr m S prec ev = percOf m (stepS1 m S prec ev) + (prec - stepPs m S prec ev) ∧
    stepPs m S prec ev = 0 ∧
    stepPr m S prec ev = percOf m (stepS1 m S prec ev) + prec := by
  have hps : stepPs m S prec ev = 0 := by
    unfold stepPs
    exact if_neg (not_le.mpr h)
  refine ⟨rfl, hps, ?_⟩
  unfold stepPr
  rw [hps]
  ring

/-- Witness for C3: a rainless day with positive evaporation demand. -/
theorem routing_input_raw_precip_witness :
    stepPr ⟨350, 0, 90, 1.7⟩ 100 0 1 =
      percOf ⟨350, 0, 90, 1.7⟩ (stepS1 ⟨350, 0, 90, 1.7⟩ 100 0 1) +
        (0 - stepPs ⟨350, 0, 90, 1.7⟩ 100 0 1) ∧
    stepPs ⟨350, 0, 90, 1.7⟩ 100 0 1 = 0 ∧
    stepPr ⟨350, 0, 90, 1.7⟩ 100 0 1 =
      percOf ⟨350, 0, 90, 1.7⟩ (stepS1 ⟨350, 0, 90, 1.7⟩ 100 0 1) + 0 :=
  routing_input_raw_precip ⟨350, 0, 90, 1.7⟩ 100 0 1 (by norm_num)

/-! Claim C9: determinism and statelessness across calls -/

/-- C9: a call of `run` leaves the model object (its four parameters)
unchanged, always starts from the fresh state S = 0.5*X1, R = 0.5*X3
with zeroed delay lines, and a repeat call with identical inputs, even
after an intervening call with arbitrary other inputs, returns the
identical discharge sequence. -/
theorem run_stateless_deterministic (m : GR4J) (pr ev prA evA : List ℝ) :
    (runMethod m pr ev).1 = m ∧
    (initState m).S = 0.5 * m.X1 ∧ (initState m).R = 0.5 * m.X3 ∧
    (runMethod ((runMethod m prA evA).1) pr ev).2 = (runMethod m pr ev).2 := by
  refine ⟨rfl, ?_, ?_, rfl⟩
  · show m.X1 * 0.5 = 0.5 * m.X1
    ring
  · show m.X3 * 0.5 = 0.5 * m.X3
    ring

/-! Claims C5 and C6: the missing input and parameter validation -/

/-- Counterexample to C5: the two inputs have different lengths (1 and
2), yet `run` raises nothing and returns an output: there is no shape
check of any kind in the method. -/
theorem shape_mismatch_counterexample :
    [(0 : ℝ)].length ≠ [(0 : ℝ), 0].length ∧
    (GR4J.run ⟨350, 0, 90, 1.7⟩ [0] [0, 0]).isSome = true := by
  refine ⟨by decide, ?_⟩
  rw [run_isSome_iff ⟨350, 0, 90, 1.7⟩ [0] [0, 0] (show (0 : ℝ) < 1.7 by norm_num)]
  decide

/-- C5 as amended: `run` has no shape check; it iterates over the length
of `precip`, so (for a working X4) it succeeds exactly when the
evapotranspiration list is at least as long as the precipitation list —
a shorter one makes the index access `evap[t]` fail (an IndexError, not
a `ShapeMismatch`), a longer one is accepted silently. -/
theorem run_no_shape_check (m : GR4J) (pr ev : List ℝ)
    (h1 : m.X1 ≠ 0) (h3 : m.X3 ≠ 0) (h4 : 0 < m.X4) :
    (m.run pr ev).isSome = true ↔ pr.length ≤ ev.length :=
  run_isSome_iff m pr ev h4

/-- Witness for C5 (amended) at a mismatched pair: 2 precipitation
values and 1 evapotranspiration value. -/
theorem run_no_shape_check_witness :
    (GR4J.run ⟨350, 0, 90, 1.7⟩ [0, 0] [0]).isSome = true ↔
      [(0 : ℝ), 0].length ≤ [(0 : ℝ)].length :=
  run_no_shape_check ⟨350, 0, 90, 1.7⟩ [0, 0] [0] (show (350 : ℝ) ≠ 0 by norm_num)
    (show (90 : ℝ) ≠ 0 by norm_num) (show (0 : ℝ) < 1.7 by norm_num)

/-- Counterexample to C6: with X1 = -1 (a non-positive production-store
capacity) and otherwise default parameters, `run` does not fail before
stepping — it completes and returns an output, because neither the
constructor nor `run` validates any parameter. -/
theorem invalid_params_accepted_cx :
    GR4J.X1 ⟨-1, 0, 90, 1.7⟩ ≤ 0 ∧
    (GR4J.run ⟨-1, 0, 90, 1.7⟩ [0] [0]).isSome = true := by
  constructor
  · show (-1 : ℝ) ≤ 0
    norm_num
  · rw [run_isSome_iff ⟨-1, 0, 90, 1.7⟩ [0] [0] (show (0 : ℝ) < 1.7 by norm_num)]

/-- C6 as amended: the system performs no parameter validation; a run
whose X1 or X3 is negative (with a workable X4, nonzero stores'
capacities, and compatible input lengths) still completes and returns a
full-length output instead of failing with `InvalidParameter`. -/
theorem run_no_param_validation (m : GR4J) (pr ev : List ℝ)
    (hbad : m.X1 < 0 ∨ m.X3 < 0) (h1 : m.X1 ≠ 0) (h3 : m.X3 ≠ 0)
    (h4 : 0 < m.X4) (hle : pr.length ≤ ev.length) :
    ∃ Q, m.run pr ev = some Q ∧ Q.length = pr.length := by
  obtain ⟨Q, hQ, hl, -⟩ := run_some m pr ev h4 hle
  exact ⟨Q, hQ, hl⟩

/-- Witness for C6 (amended) at X1 = -1. -/
theorem run_no_param_validation_witness :
    ∃ Q, GR4J.run ⟨-1, 0, 90, 1.7⟩ [0] [0] = some Q ∧ Q.length = [(0 : ℝ)].length :=
  run_no_param_validation ⟨-1, 0, 90, 1.7⟩ [0] [0]
    (Or.inl (show (-1 : ℝ) < 0 by norm_num)) (show (-1 : ℝ) ≠ 0 by norm_num)
    (show (90 : ℝ) ≠ 0 by norm_num) (show (0 : ℝ) < 1.7 by norm_num) (le_refl _)

/-! Claim C10: extra evapotranspiration entries are ignored -/

/-- C10: when the evapotranspiration list is strictly longer than the
precipitation list, `run` raises no error, the result only depends on
the first `len(precip)` evapotranspiration entries, and it has exactly
`len(precip)` values. -/
theorem run_extra_evap_ignored (m : GR4J) (pr ev : List ℝ)
    (h1 : m.X1 ≠ 0) (h3 : m.X3 ≠ 0) (h4 : 0 < m.X4) (hlt : pr.length < ev.length) :
    m.run pr ev = m.run pr (ev.take pr.length) ∧
    ∃ Q, m.run pr ev = some Q ∧ Q.length = pr.length := by
  constructor
  · rw [run_eq_of_pos m h4, run_eq_of_pos m h4,
      runAux_take m (computeUH1 m.X4) (computeUH2 m.X4) pr ev (initState m) hlt.le]
  · obtain ⟨Q, hQ, hl, -⟩ := run_some m pr ev h4 hlt.le
    exact ⟨Q, hQ, hl⟩

/-- Witness for C10: one precipitation value against two
evapotranspiration values. -/
theorem run_extra_evap_ignored_witness :
    GR4J.run ⟨350, 0, 90, 1.7⟩ [0] [0, 5] =
      GR4J.run ⟨350, 0, 90, 1.7⟩ [0] ([(0 : ℝ), 5].take [(0 : ℝ)].length) ∧
    ∃ Q, GR4J.run ⟨350, 0, 90, 1.7⟩ [0] [0, 5] = some Q ∧ Q.length = [(0 : ℝ)].length :=
  run_extra_evap_ignored ⟨350, 0, 90, 1.7⟩ [0] [0, 5] (show (350 : ℝ) ≠ 0 by norm_num)
    (show (90 : ℝ) ≠ 0 by norm_num) (show (0 : ℝ) < 1.7 by norm_num) (by decide)

/-! Claims C7 and C8: the Nash-Sutcliffe metric -/

lemma nseNumerator_self (x : List ℝ) : nseNumerator x x = 0 := by
  unfold nseNumerator
  induction x with
  | nil => rfl
  | cons a t ih =>
    rw [List.zipWith_cons_cons, List.sum_cons, ih]
    simp

lemma nseDenominator_replicate (n : ℕ) (c : ℝ) :
    nseDenominator (List.replicate n c) = 0 := by
  cases n with
  | zero => rfl
  | succ k =>
    have hmean : npMean (List.replicate (k + 1) c) = c := by
      rw [npMean, List.sum_replicate, List.length_replicate, nsmul_eq_mul]
      exact mul_div_cancel_left₀ c (Nat.cast_ne_zero.mpr (Nat.succ_ne_zero k))
    unfold nseDenominator
    rw [hmean, List.map_replicate, List.sum_replicate]
    simp

/-- Counterexample to C7: the observed series [3, 3] has zero variance
(its squared-deviation sum, the denominator of the metric, is 0), yet
`calculate_nse` does not fail with `DegenerateVariance`: it has no
variance check at all and evaluates `1 - numerator / 0` (which numpy
turns into a non-finite float with only a warning). -/
theorem nse_zero_variance_cx :
    nseDenominator [3, 3] = 0 ∧
    calculate_nse [3, 3] [3, 4] = 1 - nseNumerator [3, 3] [3, 4] / 0 := by
  have hd : nseDenominator [3, 3] = 0 := nseDenominator_replicate 2 3
  refine ⟨hd, ?_⟩
  unfold calculate_nse
  rw [hd]

/-- C7 as amended: `calculate_nse` performs no zero-variance check.  For
every constant observed series (the zero-variance case) and every
simulated series, the denominator is 0 and the function still returns
the bare expression `1 - numerator / 0` instead of raising
`DegenerateVariance` (numpy yields a non-finite float there). -/
theorem nse_no_variance_check (n : ℕ) (c : ℝ) (sim : List ℝ) :
    nseDenominator (List.replicate n c) = 0 ∧
    calculate_nse (List.replicate n c) sim =
      1 - nseNumerator (List.replicate n c) sim / 0 := by
  refine ⟨nseDenominator_replicate n c, ?_⟩
  unfold calculate_nse
  rw [nseDenominator_replicate n c]

/-- C8: for a non-constant series x, `calculate_nse x x` is exactly 1:
the numerator is a sum of squared zero differences, so the quotient is
exactly 0 and the result exactly 1 (also exact in floating point, where
`0.0 / d = 0.0` for the positive denominator d). -/
theorem nse_identity_one (x : List ℝ) (h : ∃ a ∈ x, ∃ b ∈ x, a ≠ b) :
    calculate_nse x x = 1 := by
  unfold calculate_nse
  rw [nseNumerator_self, zero_div, sub_zero]

/-- Witness for C8 on the non-constant series [0, 1]. -/
theorem nse_identity_one_witness : calculate_nse [0, 1] [0, 1] = 1 :=
  nse_identity_one [0, 1] ⟨0, by simp, 1, by simp, by norm_num⟩

/-! Claims C1 and C4: the kernels at X4 = 1.5 -/

lemma ceil_three_halves : ⌈(3 / 2 : ℝ)⌉ = (2 : ℤ) := by
  rw [Int.ceil_eq_iff]
  constructor <;> norm_num

lemma ceil_double_three_halves : ⌈2 * (3 / 2 : ℝ)⌉ = (3 : ℤ) := by
  rw [show 2 * (3 / 2 : ℝ) = ((3 : ℤ) : ℝ) by norm_num, Int.ceil_intCast]

lemma UH1raw_eval :
    UH1raw (3 / 2) 2 = [(2 / 3 : ℝ) ^ (2.5 : ℝ), (4 / 3 : ℝ) ^ (2.5 : ℝ)] := by
  unfold UH1raw
  rw [show List.range 2 = [0, 1] from rfl]
  simp only [List.map_cons, List.map_nil]
  norm_num

lemma computeUH1_eval :
    computeUH1 (3 / 2) = [(2 / 3 : ℝ) ^ (2.5 : ℝ),
      (4 / 3 : ℝ) ^ (2.5 : ℝ) - (2 / 3 : ℝ) ^ (2.5 : ℝ)] := by
  unfold computeUH1
  rw [ceil_three_halves, show ((2 : ℤ).toNat) = 2 from rfl, UH1raw_eval]
  rfl

lemma UH2raw_eval :
    UH2raw (3 / 2) 3 = [0.5 * (2 / 3 : ℝ) ^ (2.5 : ℝ),
      0.5 * (4 / 3 : ℝ) ^ (2.5 : ℝ), 1] := by
  unfold UH2raw
  rw [show List.range 3 = [0, 1, 2] from rfl]
  simp only [List.map_cons, List.map_nil]
  norm_num

lemma computeUH2_eval :
    computeUH2 (3 / 2) = [0.5 * (2 / 3 : ℝ) ^ (2.5 : ℝ),
      0.5 * (4 / 3 : ℝ) ^ (2.5 : ℝ) - 0.5 * (2 / 3 : ℝ) ^ (2.5 : ℝ),
      1 - 0.5 * (4 / 3 : ℝ) ^ (2.5 : ℝ)] := by
  unfold computeUH2
  rw [ceil_double_three_halves, show ((3 : ℤ).toNat) = 3 from rfl, UH2raw_eval]
  rfl

lemma rpow_43_25_gt_two : (2 : ℝ) < (4 / 3 : ℝ) ^ (2.5 : ℝ) := by
  have h0 : (0 : ℝ) ≤ 4 / 3 := by norm_num
  have hsq : ((4 / 3 : ℝ) ^ (2.5 : ℝ)) ^ (2 : ℕ) = (4 / 3 : ℝ) ^ (5 : ℕ) := by
    rw [← Real.rpow_natCast ((4 / 3 : ℝ) ^ (2.5 : ℝ)) 2, ← Real.rpow_mul h0]
    rw [show (2.5 : ℝ) * ((2 : ℕ) : ℝ) = ((5 : ℕ) : ℝ) by norm_num, Real.rpow_natCast]
  have hpos : (0 : ℝ) < (4 / 3 : ℝ) ^ (2.5 : ℝ) :=
    Real.rpow_pos_of_pos (by norm_num) _
  have h2 : (2 : ℝ) ^ (2 : ℕ) < ((4 / 3 : ℝ) ^ (2.5 : ℝ)) ^ (2 : ℕ) := by
    rw [hsq]
    norm_num
  exact lt_of_pow_lt_pow_left₀ 2 hpos.le h2

/-- C1 fails on the code (a bug in the code, not in the claim): at
X4 = 1.5 the UH1 ordinates sum to `(4/3)^2.5 ≈ 2.053`, which exceeds
1 by far more than the 1e-6 tolerance, because the source computes the
final cumulative ordinate as `((t+1)/X4)^2.5` without the `min(1, .)`
clamp of the specification, and `(ceil(X4)/X4)^2.5 > 1` whenever X4 is
not an integer.  (The difference telescopes: the sum equals the last
pre-normalization entry.) -/
theorem uh1_mass_conservation_fails :
    (computeUH1 (3 / 2)).sum = (4 / 3 : ℝ) ^ (2.5 : ℝ) ∧
    1 + 1 / 1000000 < (computeUH1 (3 / 2)).sum := by
  have hsum : (computeUH1 (3 / 2)).sum = (4 / 3 : ℝ) ^ (2.5 : ℝ) := by
    rw [computeUH1_eval, List.sum_cons, List.sum_cons, List.sum_nil]
    ring
  refine ⟨hsum, ?_⟩
  rw [hsum]
  have h := rpow_43_25_gt_two
  linarith

/-- C4 fails on the code (a bug in the code, not in the claim): at
X4 = 1.5 the third UH2 ordinate is `1 - 0.5*(4/3)^2.5 ≈ -0.026 < 0`,
because the branch of line 134 tests the 0-based index `t` against X4
while evaluating the rising-limb formula at `t + 1`, so the unclamped
rising-limb value `0.5*((t+1)/X4)^2.5 > 1` is used one step too far and
the following first difference turns negative. -/
theorem uh2_negative_ordinate : ∃ u ∈ computeUH2 (3 / 2), u < 0 := by
  refine ⟨1 - 0.5 * (4 / 3 : ℝ) ^ (2.5 : ℝ), ?_, ?_⟩
  · rw [computeUH2_eval]
    simp
  · have h := rpow_43_25_gt_two
    linarith
